import Mathlib

/-!
Verification of the attendance check-in bot (`src/app.py`).

The development shallowly embeds the bot's core logic:
the geofence validator (`is_location_valid`, Haversine distance over the
reals), the attendance ledger (`record_attendance`), the conversation
handlers (`start`, `checkin`, `get_location`, `cancel`) and the per-user
event routing.  Python dicts are modelled as functions into `Option`,
the attendance list as a Lean list, machine floats as real numbers, and
the `KeyError` a dict subscript may raise as an `Except` error value.
-/

open scoped Classical

/-- Degrees to radians, as in `math.radians`. -/
noncomputable def radians (x : ℝ) : ℝ := x * Real.pi / 180

/-- Two-argument arctangent, as in `math.atan2 y x`. -/
noncomputable def atan2 (y x : ℝ) : ℝ :=
  if 0 < x then Real.arctan (y / x)
  else if x < 0 then
    (if 0 ≤ y then Real.arctan (y / x) + Real.pi else Real.arctan (y / x) - Real.pi)
  else
    (if 0 < y then Real.pi / 2 else if y < 0 then -(Real.pi / 2) else 0)

/-- The intermediate value `a` of the Haversine formula in
`is_location_valid` (src/app.py line 142), for point 1 `(lat1, lon1)`
and point 2 `(lat2, lon2)`, both in degrees. -/
noncomputable def haversineA (lat1 lon1 lat2 lon2 : ℝ) : ℝ :=
  Real.sin ((radians lat2 - radians lat1) / 2) ^ 2 +
    Real.cos (radians lat1) * Real.cos (radians lat2) *
      Real.sin ((radians lon2 - radians lon1) / 2) ^ 2

/-- The Haversine great-circle distance in kilometers computed by
`is_location_valid` (src/app.py lines 130-144): Earth radius 6371.0 km
times the angular separation `c = 2 * atan2 (sqrt a) (sqrt (1 - a))`. -/
noncomputable def haversineDistance (lat1 lon1 lat2 lon2 : ℝ) : ℝ :=
  6371.0 * (2 * atan2 (Real.sqrt (haversineA lat1 lon1 lat2 lon2))
    (Real.sqrt (1 - haversineA lat1 lon1 lat2 lon2)))

/-- Geofence center latitude hard-coded in `is_location_valid`. -/
def center_latitude : ℝ := 19.523731621451685

/-- Geofence center longitude hard-coded in `is_location_valid`. -/
def center_longitude : ℝ := -99.2536655776822

/-- `is_location_valid` (src/app.py lines 103-151): the reported point is
valid exactly when its Haversine distance to the hard-coded center is at
most `max_distance = 5.0` km.  The function performs no range check on
its inputs. -/
noncomputable def is_location_valid (latitude longitude : ℝ) : Bool :=
  decide (haversineDistance latitude longitude center_latitude center_longitude ≤ 5.0)

/-- Maximum number of allowed attempts (src/app.py line 90). -/
def MAX_ATTEMPTS : Nat := 3

/-- One entry of `attendance_records` (src/app.py lines 167-175). -/
structure AttendanceRecord where
  user_id : Nat
  username : String
  timestamp : Nat
  latitude : ℝ
  longitude : ℝ

/-- The module-level mutable storage of the bot (src/app.py lines 93-95):
`user_data` and `attempt_counts` are dicts keyed by user id,
`attendance_records` is an append-only list. -/
structure BotState where
  user_data : Nat → Option String
  attendance_records : List AttendanceRecord
  attempt_counts : Nat → Option Nat

instance : Inhabited BotState :=
  ⟨{ user_data := fun _ => none, attendance_records := [], attempt_counts := fun _ => none }⟩

/-- Dict update `m[k] = v`. -/
def setk {α : Type} (m : Nat → Option α) (k : Nat) (v : α) : Nat → Option α :=
  fun k2 => if k2 = k then some v else m k2

/-- Conversation states of the handler (src/app.py lines 86-87):
`CHECK_IN = 1`, `GET_LOCATION = 2`. -/
inductive Phase
  | CHECK_IN
  | GET_LOCATION
  deriving DecidableEq

instance : Inhabited Phase := ⟨Phase.CHECK_IN⟩

/-- The outbound messages the handlers reply with, one constructor per
distinct `reply_text` call site in src/app.py. -/
inductive Msg
  | startPrompt
  | locationPrompt
  | success
  | retryOutside (remaining : Nat)
  | exhaustedOutside
  | retryInvalid (remaining : Nat)
  | exhaustedInvalid
  | farewell
  deriving DecidableEq

instance : Inhabited Msg := ⟨Msg.farewell⟩

/-- Errors a handler can raise; `keyError` models the `KeyError` that a
Python dict subscript raises on a missing key. -/
inductive BotError
  | keyError
  deriving DecidableEq

/-- `record_attendance` (src/app.py lines 154-176): append one record
with the submitted data and the current time. -/
def record_attendance (user_id : Nat) (username : String) (latitude longitude : ℝ)
    (now : Nat) (records : List AttendanceRecord) : List AttendanceRecord :=
  records ++ [{ user_id := user_id, username := username, timestamp := now,
                latitude := latitude, longitude := longitude }]

/-- `start` (src/app.py lines 179-196): store the username only when the
user id is unseen, reply with the greeting, return `CHECK_IN`. -/
def start (user_id : Nat) (username : String) (s : BotState) :
    BotState × Option Phase × Msg :=
  if (s.user_data user_id).isNone then
    ({ s with user_data := setk s.user_data user_id username },
     some Phase.CHECK_IN, Msg.startPrompt)
  else
    (s, some Phase.CHECK_IN, Msg.startPrompt)

/-- `checkin` (src/app.py lines 199-218): reset the attempt count to 0,
prompt for the location, return `GET_LOCATION`. -/
def checkin (user_id : Nat) (s : BotState) : BotState × Option Phase × Msg :=
  ({ s with attempt_counts := setk s.attempt_counts user_id 0 },
   some Phase.GET_LOCATION, Msg.locationPrompt)

/-- `get_location` (src/app.py lines 221-319).  The handler first reads
`user_data[user_id]["username"]` (a `KeyError` when the user is not
registered), initializes `attempt_counts[user_id]` to 0 when absent,
then branches on the payload: a location inside the geofence is
recorded and the count reset; otherwise the count is incremented and,
depending on `remaining = MAX_ATTEMPTS - count`, the handler re-prompts
(staying in `GET_LOCATION`) or terminates after resetting the count.
The returned phase `none` models `ConversationHandler.END`.  The event
username is available to the handler but unused by it. -/
noncomputable def get_location (user_id : Nat) (event_username : String)
    (payload : Option (ℝ × ℝ)) (now : Nat) (s : BotState) :
    Except BotError (BotState × Option Phase × Msg) :=
  match s.user_data user_id with
  | none => .error .keyError
  | some username =>
    let counts :=
      if (s.attempt_counts user_id).isNone then setk s.attempt_counts user_id 0
      else s.attempt_counts
    match payload with
    | some (latitude, longitude) =>
      if is_location_valid latitude longitude then
        .ok ({ s with
                attendance_records :=
                  record_attendance user_id username latitude longitude now
                    s.attendance_records,
                attempt_counts := setk counts user_id 0 },
             none, Msg.success)
      else
        let cnt := (counts user_id).getD 0 + 1
        let remaining := MAX_ATTEMPTS - cnt
        if remaining > 0 then
          .ok ({ s with attempt_counts := setk counts user_id cnt },
               some Phase.GET_LOCATION, Msg.retryOutside remaining)
        else
          .ok ({ s with attempt_counts := setk (setk counts user_id cnt) user_id 0 },
               none, Msg.exhaustedOutside)
    | none =>
      let cnt := (counts user_id).getD 0 + 1
      let remaining := MAX_ATTEMPTS - cnt
      if remaining > 0 then
        .ok ({ s with attempt_counts := setk counts user_id cnt },
             some Phase.GET_LOCATION, Msg.retryInvalid remaining)
      else
        .ok ({ s with attempt_counts := setk (setk counts user_id cnt) user_id 0 },
             none, Msg.exhaustedInvalid)

/-- `cancel` (src/app.py lines 322-327): reply with the farewell and end
the conversation; no storage is touched. -/
def cancel (user_id : Nat) (s : BotState) : BotState × Option Phase × Msg :=
  (s, none, Msg.farewell)

/-- A failing submission: a missing/malformed payload, or a well-formed
location outside the geofence. -/
def Failing (p : Option (ℝ × ℝ)) : Prop :=
  match p with
  | none => True
  | some q => is_location_valid q.1 q.2 = false

/-- The trace of running `get_location` on a list of payloads in order,
threading the state; an error stops the trace. -/
noncomputable def failSteps (uid : Nat) (ev : String) (t : Nat) :
    BotState → List (Option (ℝ × ℝ)) → List (BotState × Option Phase × Msg)
  | _, [] => []
  | s, p :: ps =>
    match get_location uid ev p t s with
    | .error _ => []
    | .ok r => r :: failSteps uid ev t r.1 ps

/-- An inbound channel event addressed to one user. -/
inductive Event
  | startCmd (uid : Nat) (username : String)
  | checkinCmd (uid : Nat)
  | locationMsg (uid : Nat) (event_username : String) (payload : Option (ℝ × ℝ)) (now : Nat)
  | cancelCmd (uid : Nat)

/-- The user id an event is addressed to. -/
def Event.uid : Event → Nat
  | .startCmd u _ => u
  | .checkinCmd u => u
  | .locationMsg u _ _ _ => u
  | .cancelCmd u => u

/-- Whether the event is the entry command. -/
def Event.isEntry : Event → Bool
  | .startCmd _ _ => true
  | _ => false

/-- The bot storage together with the per-user conversation state kept
by the conversation handler (`none` means no active conversation). -/
structure SystemState where
  bot : BotState
  conv : Nat → Option Phase

/-- Conversation-state update for one user. -/
def setConv (m : Nat → Option Phase) (k : Nat) (v : Option Phase) : Nat → Option Phase :=
  fun k2 => if k2 = k then v else m k2

/-- Modelled from the spec: the per-user event routing performed by the
messaging library's conversation handler as configured in `main`
(src/app.py lines 337-344); the routing code itself belongs to the
external library, not to this repository.  Per the spec's state table
and error-handling section: the entry command always (re)starts the
session; the check-in command is handled only in `CHECK_IN`; a location
message is handled only in `GET_LOCATION`; the cancel command is a
fallback handled in any active conversation; every other event is a
no-op. -/
noncomputable def dispatch (σ : SystemState) (e : Event) :
    Except BotError (SystemState × List Msg) :=
  match e with
  | .startCmd uid username =>
      match start uid username σ.bot with
      | (b, ph, m) => .ok ({ bot := b, conv := setConv σ.conv uid ph }, [m])
  | .checkinCmd uid =>
      match σ.conv uid with
      | some Phase.CHECK_IN =>
          match checkin uid σ.bot with
          | (b, ph, m) => .ok ({ bot := b, conv := setConv σ.conv uid ph }, [m])
      | _ => .ok (σ, [])
  | .locationMsg uid ev payload now =>
      match σ.conv uid with
      | some Phase.GET_LOCATION =>
          match get_location uid ev payload now σ.bot with
          | .error err => .error err
          | .ok (b, ph, m) => .ok ({ bot := b, conv := setConv σ.conv uid ph }, [m])
      | _ => .ok (σ, [])
  | .cancelCmd uid =>
      match σ.conv uid with
      | some _ =>
          match cancel uid σ.bot with
          | (b, ph, m) => .ok ({ bot := b, conv := setConv σ.conv uid ph }, [m])
      | none => .ok (σ, [])

/-- Every user with an active conversation is present in the registry. -/
def Registered (σ : SystemState) : Prop :=
  ∀ u ph, σ.conv u = some ph → ∃ nm, σ.bot.user_data u = some nm

/-- A bot state with one registered user (id 1, username alice) and
empty ledger and counters, used to instantiate the theorems. -/
def testState : BotState :=
  { user_data := fun u => if u = 1 then some "alice" else none,
    attendance_records := [],
    attempt_counts := fun _ => none }

/-- A system state with user 1 registered and awaiting a location. -/
def testSystem : SystemState :=
  { bot := testState, conv := fun u => if u = 1 then some Phase.GET_LOCATION else none }

theorem setk_same {α : Type} (m : Nat → Option α) (k : Nat) (v : α) :
    setk m k v k = some v := by
  simp [setk]

theorem setk_other {α : Type} (m : Nat → Option α) (k k2 : Nat) (v : α) (h : k2 ≠ k) :
    setk m k v k2 = m k2 := by
  simp [setk, h]

theorem haversineA_self (la lo : ℝ) : haversineA la lo la lo = 0 := by
  unfold haversineA
  rw [sub_self, sub_self, zero_div, Real.sin_zero]
  ring

theorem haversineDistance_self (la lo : ℝ) : haversineDistance la lo la lo = 0 := by
  unfold haversineDistance
  rw [haversineA_self, Real.sqrt_zero, sub_zero, Real.sqrt_one]
  unfold atan2
  rw [if_pos (by norm_num : (0:ℝ) < 1), zero_div, Real.arctan_zero]
  ring

theorem is_location_valid_center :
    is_location_valid center_latitude center_longitude = true := by
  unfold is_location_valid
  rw [haversineDistance_self]
  simp
  norm_num

theorem haversineA_symm (lat1 lon1 lat2 lon2 : ℝ) :
    haversineA lat1 lon1 lat2 lon2 = haversineA lat2 lon2 lat1 lon1 := by
  unfold haversineA
  rw [show radians lat1 - radians lat2 = -(radians lat2 - radians lat1) by ring,
    show radians lon1 - radians lon2 = -(radians lon2 - radians lon1) by ring,
    neg_div, neg_div, Real.sin_neg, Real.sin_neg]
  ring

/-- C1: for every reported point, the geofence validator answers true
exactly when the Haversine great-circle distance (Earth radius 6371.0
km, angular separation 2 * atan2 (sqrt a) (sqrt (1-a)) with
a = sin^2(dlat/2) + cos lat1 * cos lat2 * sin^2(dlon/2)) from the point
to the configured center (19.523731621451685, -99.2536655776822) is at
most the radius 5.0 km; the boundary distance = 5.0 is inside. -/
theorem C1_geofence_threshold (latitude longitude : ℝ) :
    is_location_valid latitude longitude = true ↔
      6371.0 * (2 * atan2
        (Real.sqrt (Real.sin ((radians center_latitude - radians latitude) / 2) ^ 2 +
          Real.cos (radians latitude) * Real.cos (radians center_latitude) *
            Real.sin ((radians center_longitude - radians longitude) / 2) ^ 2))
        (Real.sqrt (1 - (Real.sin ((radians center_latitude - radians latitude) / 2) ^ 2 +
          Real.cos (radians latitude) * Real.cos (radians center_latitude) *
            Real.sin ((radians center_longitude - radians longitude) / 2) ^ 2)))) ≤ 5.0 := by
  unfold is_location_valid haversineDistance haversineA
  simp

/-- C5: contrary to the claim, the validator performs no coordinate
range check: the out-of-range input latitude 91 flows straight into the
Haversine distance computation and yields an inside/outside boolean
instead of an InvalidCoordinate error (the model's validator is a total
boolean function with no error outcome, mirroring src/app.py lines
103-151, which have no range test). -/
theorem C5_out_of_range_reaches_distance :
    is_location_valid 91 0 = true ↔
      haversineDistance 91 0 center_latitude center_longitude ≤ 5.0 := by
  unfold is_location_valid
  simp

/-- C8: the Haversine distance computed by the validator's formula is
symmetric in the two points. -/
theorem C8_haversine_symmetric (lat1 lon1 lat2 lon2 : ℝ) :
    haversineDistance lat1 lon1 lat2 lon2 = haversineDistance lat2 lon2 lat1 lon1 := by
  unfold haversineDistance
  rw [haversineA_symm]

theorem get_location_success_eq (uid : Nat) (name ev : String) (la lo : ℝ) (t : Nat)
    (s : BotState) (hreg : s.user_data uid = some name)
    (hv : is_location_valid la lo = true) :
    get_location uid ev (some (la, lo)) t s =
      .ok ({ s with
              attendance_records := record_attendance uid name la lo t s.attendance_records,
              attempt_counts :=
                setk (if (s.attempt_counts uid).isNone then setk s.attempt_counts uid 0
                      else s.attempt_counts) uid 0 },
           none, Msg.success) := by
  simp only [get_location, hreg]
  simp [hv]

theorem get_location_fail_step (uid : Nat) (ev : String) (p : Option (ℝ × ℝ)) (t : Nat)
    (s : BotState) (name : String)
    (hreg : s.user_data uid = some name)
    (hfail : Failing p) :
    ∃ s2 ph m, get_location uid ev p t s = .ok (s2, ph, m) ∧
      s2.user_data = s.user_data ∧
      s2.attendance_records = s.attendance_records ∧
      (∀ v, v ≠ uid → s2.attempt_counts v = s.attempt_counts v) ∧
      (if (s.attempt_counts uid).getD 0 + 1 < MAX_ATTEMPTS then
         s2.attempt_counts uid = some ((s.attempt_counts uid).getD 0 + 1) ∧
           ph = some Phase.GET_LOCATION ∧
           (m = Msg.retryOutside (MAX_ATTEMPTS - ((s.attempt_counts uid).getD 0 + 1)) ∨
             m = Msg.retryInvalid (MAX_ATTEMPTS - ((s.attempt_counts uid).getD 0 + 1)))
       else s2.attempt_counts uid = some 0 ∧ ph = none ∧
           (m = Msg.exhaustedOutside ∨ m = Msg.exhaustedInvalid)) := by
  have hcounts :
      ((if (s.attempt_counts uid).isNone then setk s.attempt_counts uid 0
        else s.attempt_counts) uid).getD 0 = (s.attempt_counts uid).getD 0 := by
    rcases hcase : s.attempt_counts uid with _ | k
    · simp [hcase, setk_same]
    · simp [hcase]
  have hother : ∀ v, v ≠ uid →
      (if (s.attempt_counts uid).isNone then setk s.attempt_counts uid 0
        else s.attempt_counts) v = s.attempt_counts v := by
    intro v hv
    rcases hcase : s.attempt_counts uid with _ | k
    · simp [hcase, setk_other _ _ _ _ hv]
    · simp [hcase]
  rcases p with _ | ⟨la, lo⟩
  · simp only [get_location, hreg, hcounts]
    by_cases hrem : MAX_ATTEMPTS - ((s.attempt_counts uid).getD 0 + 1) > 0
    · rw [if_pos hrem]
      refine ⟨_, _, _, rfl, rfl, rfl, ?_, ?_⟩
      · intro v hv
        simp only [setk_other _ _ _ _ hv, hother v hv]
      · rw [if_pos (by unfold MAX_ATTEMPTS at hrem ⊢; omega)]
        exact ⟨by simp [setk, hcounts], rfl, Or.inr rfl⟩
    · rw [if_neg hrem]
      refine ⟨_, _, _, rfl, rfl, rfl, ?_, ?_⟩
      · intro v hv
        simp only [setk_other _ _ _ _ hv, hother v hv]
      · rw [if_neg (by unfold MAX_ATTEMPTS at hrem ⊢; omega)]
        exact ⟨by simp [setk], rfl, Or.inr rfl⟩
  · have hnv : is_location_valid la lo = false := hfail
    simp only [get_location, hreg, hnv, Bool.false_eq_true, if_false, hcounts]
    by_cases hrem : MAX_ATTEMPTS - ((s.attempt_counts uid).getD 0 + 1) > 0
    · rw [if_pos hrem]
      refine ⟨_, _, _, rfl, rfl, rfl, ?_, ?_⟩
      · intro v hv
        simp only [setk_other _ _ _ _ hv, hother v hv]
      · rw [if_pos (by unfold MAX_ATTEMPTS at hrem ⊢; omega)]
        exact ⟨by simp [setk, hcounts], rfl, Or.inl rfl⟩
    · rw [if_neg hrem]
      refine ⟨_, _, _, rfl, rfl, rfl, ?_, ?_⟩
      · intro v hv
        simp only [setk_other _ _ _ _ hv, hother v hv]
      · rw [if_neg (by unfold MAX_ATTEMPTS at hrem ⊢; omega)]
        exact ⟨by simp [setk], rfl, Or.inl rfl⟩

theorem failSteps_spec (uid : Nat) (ev : String) (t : Nat) (name : String) :
    ∀ (ps : List (Option (ℝ × ℝ))) (s : BotState) (c : Nat),
      s.user_data uid = some name →
      (s.attempt_counts uid).getD 0 = c →
      (∀ p ∈ ps, Failing p) →
      c + ps.length ≤ MAX_ATTEMPTS →
      (failSteps uid ev t s ps).length = ps.length ∧
      ∀ i, i < ps.length →
        ((failSteps uid ev t s ps).getD i default).1.user_data = s.user_data ∧
        ((failSteps uid ev t s ps).getD i default).1.attendance_records =
          s.attendance_records ∧
        ((failSteps uid ev t s ps).getD i default).1.attempt_counts uid =
          some (if c + i + 1 < MAX_ATTEMPTS then c + i + 1 else 0) ∧
        ((failSteps uid ev t s ps).getD i default).2.1 =
          (if c + i + 1 < MAX_ATTEMPTS then some Phase.GET_LOCATION else none) ∧
        (c + i + 1 < MAX_ATTEMPTS →
          ((failSteps uid ev t s ps).getD i default).2.2 =
              Msg.retryOutside (MAX_ATTEMPTS - (c + i + 1)) ∨
            ((failSteps uid ev t s ps).getD i default).2.2 =
              Msg.retryInvalid (MAX_ATTEMPTS - (c + i + 1))) := by
  intro ps
  induction ps with
  | nil =>
    intro s c hreg hc hfail hlen
    exact ⟨rfl, fun i hi => absurd hi (by simp)⟩
  | cons p ps ih =>
    intro s c hreg hc hfail hlen
    obtain ⟨s2, ph, m, heq, hud, har, hoth, hif⟩ :=
      get_location_fail_step uid ev p t s name hreg (hfail p (List.mem_cons_self _ _))
    have hfs : failSteps uid ev t s (p :: ps) = (s2, ph, m) :: failSteps uid ev t s2 ps := by
      simp [failSteps, heq]
    rw [hc] at hif
    by_cases hc1 : c + 1 < MAX_ATTEMPTS
    · rw [if_pos hc1] at hif
      obtain ⟨hcnt, hph, hm⟩ := hif
      have hreg2 : s2.user_data uid = some name := by rw [hud]; exact hreg
      have hc2 : (s2.attempt_counts uid).getD 0 = c + 1 := by rw [hcnt]; rfl
      have hfail2 : ∀ q ∈ ps, Failing q := fun q hq => hfail q (List.mem_cons_of_mem _ hq)
      have hlen2 : (c + 1) + ps.length ≤ MAX_ATTEMPTS := by
        simp only [List.length_cons] at hlen
        omega
      obtain ⟨ihlen, ihitems⟩ := ih s2 (c + 1) hreg2 hc2 hfail2 hlen2
      refine ⟨by rw [hfs]; simp [ihlen], ?_⟩
      intro i hi
      rcases i with _ | j
      · rw [hfs]
        simp only [List.getD_cons_zero, Nat.add_zero]
        exact ⟨hud, har, by rw [hcnt, if_pos hc1], by rw [hph, if_pos hc1],
          fun _ => hm.elim Or.inl Or.inr⟩
      · have hj : j < ps.length := by
          simp only [List.length_cons] at hi
          omega
        have e : c + 1 + j = c + (j + 1) := by omega
        obtain ⟨ih1, ih2, ih3, ih4, ih5⟩ := ihitems j hj
        rw [e] at ih3 ih4 ih5
        rw [hfs]
        simp only [List.getD_cons_succ]
        exact ⟨by rw [ih1, hud], by rw [ih2, har], ih3, ih4, ih5⟩
    · rw [if_neg hc1] at hif
      obtain ⟨hcnt, hph, hm⟩ := hif
      have hps : ps = [] := by
        simp only [List.length_cons] at hlen
        have : ps.length = 0 := by omega
        exact List.length_eq_zero.mp this
      subst hps
      refine ⟨by rw [hfs]; simp [failSteps], ?_⟩
      intro i hi
      have hi0 : i = 0 := by
        simp only [List.length_cons, List.length_nil] at hi
        omega
      subst hi0
      rw [hfs]
      simp only [List.getD_cons_zero, Nat.add_zero]
      exact ⟨hud, har, by rw [hcnt, if_neg hc1], by rw [hph, if_neg hc1],
        fun h => absurd h hc1⟩

/-- C2: after a check-in command resets the counter to 0, a sequence of
N <= MAX_ATTEMPTS consecutive failed submissions (outside the geofence
or malformed) keeps the session in the awaiting-location state while
attempts remain, with the failed-attempt counter increasing by exactly
1 per failure (so remaining = MAX_ATTEMPTS - counter decreases by 1);
the MAX_ATTEMPTS-th failure ends the conversation and resets the
counter to 0; the counter never exceeds MAX_ATTEMPTS. -/
theorem C2_failed_attempt_sequence (uid : Nat) (name ev : String) (t : Nat) (s : BotState)
    (ps : List (Option (ℝ × ℝ)))
    (hreg : s.user_data uid = some name)
    (hfail : ∀ p ∈ ps, Failing p)
    (hlen : ps.length ≤ MAX_ATTEMPTS) :
    (failSteps uid ev t (checkin uid s).1 ps).length = ps.length ∧
    (∀ i, i < ps.length →
      ((failSteps uid ev t (checkin uid s).1 ps).getD i default).1.attempt_counts uid =
          some (if i + 1 < MAX_ATTEMPTS then i + 1 else 0) ∧
      ((failSteps uid ev t (checkin uid s).1 ps).getD i default).2.1 =
        (if i + 1 < MAX_ATTEMPTS then some Phase.GET_LOCATION else none)) ∧
    (∀ i k,
      ((failSteps uid ev t (checkin uid s).1 ps).getD i default).1.attempt_counts uid =
          some k → k ≤ MAX_ATTEMPTS) := by
  have hreg1 : (checkin uid s).1.user_data uid = some name := hreg
  have hc1 : ((checkin uid s).1.attempt_counts uid).getD 0 = 0 := by
    simp [checkin, setk_same]
  obtain ⟨hlen', hitems⟩ :=
    failSteps_spec uid ev t name ps (checkin uid s).1 0 hreg1 hc1 hfail
      (by simpa using hlen)
  refine ⟨hlen', ?_, ?_⟩
  · intro i hi
    obtain ⟨_, _, h3, h4, _⟩ := hitems i hi
    rw [Nat.zero_add] at h3 h4
    exact ⟨h3, h4⟩
  · intro i k hk
    by_cases hi : i < ps.length
    · obtain ⟨_, _, h3, _, _⟩ := hitems i hi
      rw [h3] at hk
      have := Option.some.inj hk
      unfold MAX_ATTEMPTS at *
      split at this <;> omega
    · have hge : (failSteps uid ev t (checkin uid s).1 ps).length ≤ i := by
        rw [hlen']
        omega
      rw [List.getD_eq_default _ _ hge] at hk
      exact Option.noConfusion hk

/-- C3: a submission with a valid location inside the geofence appends
exactly one attendance record with the submitting user's id and
coordinates, resets that user's attempt counter to 0, emits the success
message, and ends the conversation. -/
theorem C3_success_records_attendance (uid : Nat) (name ev : String) (la lo : ℝ)
    (t : Nat) (s : BotState)
    (hreg : s.user_data uid = some name)
    (hvalid : is_location_valid la lo = true) :
    ∃ s2, get_location uid ev (some (la, lo)) t s = .ok (s2, none, Msg.success) ∧
      s2.attendance_records = s.attendance_records ++
        [{ user_id := uid, username := name, timestamp := t, latitude := la,
           longitude := lo }] ∧
      s2.attempt_counts uid = some 0 ∧
      s2.user_data = s.user_data := by
  refine ⟨_, get_location_success_eq uid name ev la lo t s hreg hvalid, ?_, ?_, rfl⟩
  · simp [record_attendance]
  · simp [setk_same]

/-- C4: no attendance record is ever appended by a failing submission,
over any sequence of failures of any length. -/
theorem C4_failure_preserves_ledger (uid : Nat) (ev : String) (t : Nat) (s : BotState)
    (ps : List (Option (ℝ × ℝ))) (hfail : ∀ p ∈ ps, Failing p) :
    ∀ r ∈ failSteps uid ev t s ps, r.1.attendance_records = s.attendance_records := by
  revert hfail
  induction ps generalizing s with
  | nil =>
    intro hfail r hr
    exact absurd hr (by simp [failSteps])
  | cons p ps ih =>
    intro hfail r hr
    rcases hcase : s.user_data uid with _ | name
    · rw [show failSteps uid ev t s (p :: ps) = [] by
        simp [failSteps, get_location, hcase]] at hr
      exact absurd hr (by simp)
    · obtain ⟨s2, ph, m, heq, hud, har, hoth, hif⟩ :=
        get_location_fail_step uid ev p t s name hcase (hfail p (List.mem_cons_self _ _))
      rw [show failSteps uid ev t s (p :: ps) = (s2, ph, m) :: failSteps uid ev t s2 ps by
        simp [failSteps, heq]] at hr
      rcases List.mem_cons.mp hr with h | h
      · rw [h]
        exact har
      · rw [ih s2 (fun q hq => hfail q (List.mem_cons_of_mem _ hq)) r h, har]

/-- C9: a registered user whose attempt counter has no entry yet is
treated exactly like a user with counter 0: the location handler
initializes the counter before counting, the first failure leaves the
counter at 1 with the session still awaiting a location, and only the
MAX_ATTEMPTS-th consecutive failure ends the conversation (resetting
the counter to 0), so the user receives the full MAX_ATTEMPTS attempts. -/
theorem C9_uncounted_user_full_attempts (uid : Nat) (name ev : String) (t : Nat)
    (s : BotState) (ps : List (Option (ℝ × ℝ)))
    (hreg : s.user_data uid = some name)
    (hnone : s.attempt_counts uid = none)
    (hfail : ∀ p ∈ ps, Failing p)
    (hlen : ps.length = MAX_ATTEMPTS) :
    (failSteps uid ev t s ps).length = MAX_ATTEMPTS ∧
    ((failSteps uid ev t s ps).getD 0 default).1.attempt_counts uid = some 1 ∧
    ((failSteps uid ev t s ps).getD 0 default).2.1 = some Phase.GET_LOCATION ∧
    ((failSteps uid ev t s ps).getD 1 default).2.1 = some Phase.GET_LOCATION ∧
    ((failSteps uid ev t s ps).getD 2 default).2.1 = none ∧
    ((failSteps uid ev t s ps).getD 2 default).1.attempt_counts uid = some 0 := by
  have hc : (s.attempt_counts uid).getD 0 = 0 := by rw [hnone]; rfl
  have hlen3 : ps.length = 3 := hlen
  obtain ⟨hlen', hitems⟩ :=
    failSteps_spec uid ev t name ps s 0 hreg hc hfail
      (by unfold MAX_ATTEMPTS; omega)
  have h0 := hitems 0 (by omega)
  have h1 := hitems 1 (by omega)
  have h2 := hitems 2 (by omega)
  refine ⟨by rw [hlen', hlen], ?_, ?_, ?_, ?_, ?_⟩
  · rw [h0.2.2.1]
    norm_num [MAX_ATTEMPTS]
  · rw [h0.2.2.2.1]
    norm_num [MAX_ATTEMPTS]
  · rw [h1.2.2.2.1]
    norm_num [MAX_ATTEMPTS]
  · rw [h2.2.2.2.1]
    norm_num [MAX_ATTEMPTS]
  · rw [h2.2.2.1]
    norm_num [MAX_ATTEMPTS]

/-- C10: for a returning user the entry handler leaves the stored
username unchanged, and the username written into an appended
attendance record is the stored one from the user's first entry
command, even when the submitting event carries a different current
username. -/
theorem C10_username_first_seen (uid : Nat) (oldName newName ev : String)
    (la lo : ℝ) (t : Nat) (s : BotState)
    (hreg : s.user_data uid = some oldName) :
    (start uid newName s).1.user_data = s.user_data ∧
    (is_location_valid la lo = true →
      ∃ s2, get_location uid ev (some (la, lo)) t (start uid newName s).1 =
          .ok (s2, none, Msg.success) ∧
        s2.attendance_records = s.attendance_records ++
          [{ user_id := uid, username := oldName, timestamp := t, latitude := la,
             longitude := lo }]) := by
  have hstart : (start uid newName s).1 = s := by
    simp [start, hreg]
  constructor
  · rw [hstart]
  · intro hv
    rw [hstart]
    refine ⟨_, get_location_success_eq uid oldName ev la lo t s hreg hv, ?_⟩
    simp [record_attendance]

theorem get_location_ok_of_registered (uid : Nat) (ev : String) (p : Option (ℝ × ℝ))
    (t : Nat) (s : BotState) (name : String) (hreg : s.user_data uid = some name) :
    ∃ s2 ph m, get_location uid ev p t s = .ok (s2, ph, m) ∧
      s2.user_data = s.user_data := by
  rcases p with _ | ⟨la, lo⟩
  · obtain ⟨s2, ph, m, heq, hud, _⟩ :=
      get_location_fail_step uid ev none t s name hreg trivial
    exact ⟨s2, ph, m, heq, hud⟩
  · rcases hv : is_location_valid la lo with _ | _
    · obtain ⟨s2, ph, m, heq, hud, _⟩ :=
        get_location_fail_step uid ev (some (la, lo)) t s name hreg hv
      exact ⟨s2, ph, m, heq, hud⟩
    · exact ⟨_, _, _, get_location_success_eq uid name ev la lo t s hreg hv, rfl⟩

/-- C6: an event for a user with no active conversation state is
handled without any unhandled exception: a non-entry event is a no-op
(only the entry command starts a session); moreover, from any state
where every active conversation belongs to a registered user, no event
whatsoever makes the routing raise, and that registration property is
preserved, so a location report from a user absent from the registry
can never reach the handler that would raise a key error. -/
theorem C6_unknown_user_never_crashes (σ : SystemState) (e : Event)
    (hinv : Registered σ) :
    (σ.conv (Event.uid e) = none → Event.isEntry e = false →
      dispatch σ e = .ok (σ, [])) ∧
    (∃ out, dispatch σ e = .ok out) ∧
    (∀ out, dispatch σ e = .ok out → Registered out.1) := by
  rcases e with ⟨uid, username⟩ | ⟨uid⟩ | ⟨uid, ev, payload, now⟩ | ⟨uid⟩
  · refine ⟨?_, ?_, ?_⟩
    · intro _ habs
      exact absurd habs (by simp [Event.isEntry])
    · exact ⟨_, rfl⟩
    · intro out hout
      have hout' : out =
          ({ bot := (start uid username σ.bot).1,
             conv := setConv σ.conv uid (start uid username σ.bot).2.1 }, 
           [(start uid username σ.bot).2.2]) := by
        have := hout
        unfold dispatch at this
        exact (Except.ok.inj this).symm
      rw [hout']
      intro u ph hu
      by_cases hcase : u = uid
      · subst hcase
        unfold start
        by_cases hnew : (σ.bot.user_data u).isNone
        · rw [if_pos hnew]
          exact ⟨username, setk_same _ _ _⟩
        · rw [if_neg hnew]
          rcases hold : σ.bot.user_data u with _ | nm
          · rw [hold] at hnew
            exact absurd rfl hnew
          · exact ⟨nm, rfl⟩
      · simp only [setConv, if_neg hcase] at hu
        obtain ⟨nm, hnm⟩ := hinv u ph hu
        refine ⟨nm, ?_⟩
        unfold start
        by_cases hnew : (σ.bot.user_data uid).isNone
        · rw [if_pos hnew]
          simp only [setk, if_neg hcase]
          exact hnm
        · rw [if_neg hnew]
          exact hnm
  · rcases hconv : σ.conv uid with _ | ph
    · refine ⟨fun _ _ => by simp [dispatch, hconv],
        ⟨(σ, []), by simp [dispatch, hconv]⟩, ?_⟩
      intro out hout
      simp only [dispatch, hconv] at hout
      rw [← Except.ok.inj hout]
      exact hinv
    · rcases ph with _ | _
      · refine ⟨?_,
          ⟨({ bot := { σ.bot with attempt_counts := setk σ.bot.attempt_counts uid 0 },
              conv := setConv σ.conv uid (some Phase.GET_LOCATION) },
            [Msg.locationPrompt]), by simp [dispatch, hconv, checkin]⟩, ?_⟩
        · intro habs
          simp only [Event.uid] at habs
          rw [hconv] at habs
          exact absurd habs (by simp)
        · intro out hout
          simp only [dispatch, hconv, checkin] at hout
          rw [← Except.ok.inj hout]
          intro u ph2 hu
          by_cases hcase : u = uid
          · subst hcase
            exact hinv u Phase.CHECK_IN hconv
          · simp only [setConv, if_neg hcase] at hu
            exact hinv u ph2 hu
      · obtain ⟨nm, hnm⟩ := hinv uid Phase.GET_LOCATION hconv
        refine ⟨?_, ⟨(σ, []), by simp [dispatch, hconv]⟩, ?_⟩
        · intro habs
          simp only [Event.uid] at habs
          rw [hconv] at habs
          exact absurd habs (by simp)
        · intro out hout
          simp only [dispatch, hconv] at hout
          rw [← Except.ok.inj hout]
          exact hinv
  · rcases hconv : σ.conv uid with _ | ph
    · refine ⟨fun _ _ => by simp [dispatch, hconv],
        ⟨(σ, []), by simp [dispatch, hconv]⟩, ?_⟩
      intro out hout
      simp only [dispatch, hconv] at hout
      rw [← Except.ok.inj hout]
      exact hinv
    · rcases ph with _ | _
      · refine ⟨?_, ⟨(σ, []), by simp [dispatch, hconv]⟩, ?_⟩
        · intro habs
          simp only [Event.uid] at habs
          rw [hconv] at habs
          exact absurd habs (by simp)
        · intro out hout
          simp only [dispatch, hconv] at hout
          rw [← Except.ok.inj hout]
          exact hinv
      · obtain ⟨nm, hnm⟩ := hinv uid Phase.GET_LOCATION hconv
        obtain ⟨s2, ph2, m2, heq, hud⟩ :=
          get_location_ok_of_registered uid ev payload now σ.bot nm hnm
        refine ⟨?_,
          ⟨({ bot := s2, conv := setConv σ.conv uid ph2 }, [m2]),
            by simp [dispatch, hconv, heq]⟩, ?_⟩
        · intro habs
          simp only [Event.uid] at habs
          rw [hconv] at habs
          exact absurd habs (by simp)
        · intro out hout
          simp only [dispatch, hconv, heq] at hout
          rw [← Except.ok.inj hout]
          intro u ph3 hu
          by_cases hcase : u = uid
          · subst hcase
            refine ⟨nm, ?_⟩
            show s2.user_data u = some nm
            rw [hud]
            exact hnm
          · simp only [setConv, if_neg hcase] at hu
            obtain ⟨nm2, hnm2⟩ := hinv u ph3 hu
            refine ⟨nm2, ?_⟩
            show s2.user_data u = some nm2
            rw [hud]
            exact hnm2
  · rcases hconv : σ.conv uid with _ | ph
    · refine ⟨fun _ _ => by simp [dispatch, hconv],
        ⟨(σ, []), by simp [dispatch, hconv]⟩, ?_⟩
      intro out hout
      simp only [dispatch, hconv] at hout
      rw [← Except.ok.inj hout]
      exact hinv
    · refine ⟨?_,
        ⟨({ bot := σ.bot, conv := setConv σ.conv uid none }, [Msg.farewell]),
          by simp [dispatch, hconv, cancel]⟩, ?_⟩
      · intro habs
        simp only [Event.uid] at habs
        rw [hconv] at habs
        exact absurd habs (by simp)
      · intro out hout
        simp only [dispatch, hconv, cancel] at hout
        rw [← Except.ok.inj hout]
        intro u ph3 hu
        by_cases hcase : u = uid
        · subst hcase
          simp only [setConv, if_pos rfl] at hu
          exact Option.noConfusion hu
        · simp only [setConv, if_neg hcase] at hu
          exact hinv u ph3 hu

/-- C7: in any active session phase, the cancel command immediately
ends the conversation, emits exactly the farewell message, leaves the
whole bot storage unchanged (so no attendance record is appended and no
attempt is counted), and clears only that user's conversation state. -/
theorem C7_cancel_terminates (σ : SystemState) (uid : Nat) (ph : Phase)
    (hconv : σ.conv uid = some ph) :
    ∃ σ2, dispatch σ (Event.cancelCmd uid) = .ok (σ2, [Msg.farewell]) ∧
      σ2.bot = σ.bot ∧
      σ2.bot.attendance_records = σ.bot.attendance_records ∧
      σ2.bot.attempt_counts = σ.bot.attempt_counts ∧
      σ2.conv uid = none ∧
      (∀ v, v ≠ uid → σ2.conv v = σ.conv v) := by
  refine ⟨{ bot := σ.bot, conv := setConv σ.conv uid none }, ?_, rfl, rfl, rfl, ?_, ?_⟩
  · simp [dispatch, hconv, cancel]
  · simp [setConv]
  · intro v hv
    simp [setConv, hv]

/-- Witness instantiating C2 with three malformed submissions. -/
theorem C2_failed_attempt_sequence_witness :
    testState.user_data 1 = some "alice" ∧
    ((failSteps 1 "al" 0 (checkin 1 testState).1 [none, none, none]).length =
        ([none, none, none] : List (Option (ℝ × ℝ))).length ∧
      (∀ i, i < ([none, none, none] : List (Option (ℝ × ℝ))).length →
        ((failSteps 1 "al" 0 (checkin 1 testState).1 [none, none, none]).getD i
            default).1.attempt_counts 1 =
          some (if i + 1 < MAX_ATTEMPTS then i + 1 else 0) ∧
        ((failSteps 1 "al" 0 (checkin 1 testState).1 [none, none, none]).getD i
            default).2.1 =
          (if i + 1 < MAX_ATTEMPTS then some Phase.GET_LOCATION else none)) ∧
      (∀ i k,
        ((failSteps 1 "al" 0 (checkin 1 testState).1 [none, none, none]).getD i
            default).1.attempt_counts 1 = some k → k ≤ MAX_ATTEMPTS)) :=
  ⟨rfl, C2_failed_attempt_sequence 1 "alice" "al" 0 testState [none, none, none] rfl
    (by
      intro p hp
      simp only [List.mem_cons, List.not_mem_nil, or_false] at hp
      rcases hp with h | h | h <;> subst h <;> trivial)
    (by decide)⟩

/-- Witness instantiating C3 at the geofence center. -/
theorem C3_success_records_attendance_witness :
    testState.user_data 1 = some "alice" ∧
    is_location_valid center_latitude center_longitude = true ∧
    ∃ s2, get_location 1 "al" (some (center_latitude, center_longitude)) 0 testState =
        .ok (s2, none, Msg.success) ∧
      s2.attendance_records = testState.attendance_records ++
        [{ user_id := 1, username := "alice", timestamp := 0,
           latitude := center_latitude, longitude := center_longitude }] ∧
      s2.attempt_counts 1 = some 0 ∧
      s2.user_data = testState.user_data :=
  ⟨rfl, is_location_valid_center,
    C3_success_records_attendance 1 "alice" "al" center_latitude center_longitude 0
      testState rfl is_location_valid_center⟩

/-- Witness instantiating C4 with one malformed submission. -/
theorem C4_failure_preserves_ledger_witness :
    Failing (none : Option (ℝ × ℝ)) ∧
    (∀ r ∈ failSteps 1 "al" 0 testState [none],
      r.1.attendance_records = testState.attendance_records) :=
  ⟨trivial,
    C4_failure_preserves_ledger 1 "al" 0 testState [none]
      (by
        intro p hp
        simp only [List.mem_singleton] at hp
        subst hp
        trivial)⟩

/-- Witness instantiating C6 with a cancel command from a user with no
conversation state, in a system with no active conversations. -/
theorem C6_unknown_user_never_crashes_witness :
    Registered { bot := testState, conv := fun _ => none } ∧
    ((({ bot := testState, conv := fun _ => none } : SystemState).conv
        (Event.uid (Event.cancelCmd 5)) = none →
      Event.isEntry (Event.cancelCmd 5) = false →
      dispatch { bot := testState, conv := fun _ => none } (Event.cancelCmd 5) =
        .ok ({ bot := testState, conv := fun _ => none }, [])) ∧
    (∃ out, dispatch { bot := testState, conv := fun _ => none }
        (Event.cancelCmd 5) = .ok out) ∧
    (∀ out, dispatch { bot := testState, conv := fun _ => none }
        (Event.cancelCmd 5) = .ok out → Registered out.1)) :=
  ⟨fun _ _ h => Option.noConfusion h,
    C6_unknown_user_never_crashes { bot := testState, conv := fun _ => none }
      (Event.cancelCmd 5) (fun _ _ h => Option.noConfusion h)⟩

/-- Witness instantiating C7 with a user awaiting a location. -/
theorem C7_cancel_terminates_witness :
    testSystem.conv 1 = some Phase.GET_LOCATION ∧
    (∃ σ2, dispatch testSystem (Event.cancelCmd 1) = .ok (σ2, [Msg.farewell]) ∧
      σ2.bot = testSystem.bot ∧
      σ2.bot.attendance_records = testSystem.bot.attendance_records ∧
      σ2.bot.attempt_counts = testSystem.bot.attempt_counts ∧
      σ2.conv 1 = none ∧
      (∀ v, v ≠ 1 → σ2.conv v = testSystem.conv v)) :=
  ⟨rfl, C7_cancel_terminates testSystem 1 Phase.GET_LOCATION rfl⟩

/-- Witness instantiating C9 with a registered user who has no attempt
counter entry and submits three malformed payloads. -/
theorem C9_uncounted_user_full_attempts_witness :
    testState.user_data 1 = some "alice" ∧
    testState.attempt_counts 1 = none ∧
    ((failSteps 1 "al" 0 testState [none, none, none]).length = MAX_ATTEMPTS ∧
    ((failSteps 1 "al" 0 testState [none, none, none]).getD 0
        default).1.attempt_counts 1 = some 1 ∧
    ((failSteps 1 "al" 0 testState [none, none, none]).getD 0 default).2.1 =
        some Phase.GET_LOCATION ∧
    ((failSteps 1 "al" 0 testState [none, none, none]).getD 1 default).2.1 =
        some Phase.GET_LOCATION ∧
    ((failSteps 1 "al" 0 testState [none, none, none]).getD 2 default).2.1 = none ∧
    ((failSteps 1 "al" 0 testState [none, none, none]).getD 2
        default).1.attempt_counts 1 = some 0) :=
  ⟨rfl, rfl, C9_uncounted_user_full_attempts 1 "alice" "al" 0 testState [none, none, none]
    rfl rfl
    (by
      intro p hp
      simp only [List.mem_cons, List.not_mem_nil, or_false] at hp
      rcases hp with h | h | h <;> subst h <;> trivial)
    rfl⟩

/-- Witness instantiating C10: a returning user whose stored username is
alice issues the entry command with current username bob and then
submits the geofence center. -/
theorem C10_username_first_seen_witness :
    testState.user_data 1 = some "alice" ∧
    ((start 1 "bob" testState).1.user_data = testState.user_data ∧
    (is_location_valid center_latitude center_longitude = true →
      ∃ s2, get_location 1 "bob" (some (center_latitude, center_longitude)) 0
          (start 1 "bob" testState).1 = .ok (s2, none, Msg.success) ∧
        s2.attendance_records = testState.attendance_records ++
          [{ user_id := 1, username := "alice", timestamp := 0,
             latitude := center_latitude, longitude := center_longitude }])) :=
  ⟨rfl, C10_username_first_seen 1 "alice" "bob" "bob" center_latitude center_longitude 0
    testState rfl⟩
